import Mathlib

/-!
Verification of the supervised build-and-run core of `vite-plugin-go-watch.js`.

The plugin is a single-threaded, event-driven coordinator: a watcher delivers
change events; `debouncedRebuild` / `debouncedPreCommandsOnly` debounce them
through the shared `buildTimeout` variable; `rebuildAndRestartGoApp` kills the
tracked child (`goProcess`), runs pre-commands and the build, spawns the new
binary and waits for readiness; `killGoProcess` escalates SIGTERM to SIGKILL
after a 3000 ms grace window; an unexpected post-ready exit schedules
`restartGoApp` after 1000 ms.

The development contains:
* `GoWatch` — a small-step trace model of the event loop (state = the module
  level mutable variables of the plugin closure plus the in-flight promises;
  events = the points where control returns to the event loop).  JavaScript
  run-to-completion semantics: each event handler's synchronous segment is one
  step of the model.
* `KillModel` — the internal event machine of one `killGoProcess` invocation,
  including Node's `ChildProcess.killed` flag semantics ("a signal was
  successfully sent"), which the grace-timer guard reads.
* `ReadyModel` — the readiness monitor of `runGoApp` when a `readyPattern`
  is configured (stdout data handler + `readyTimeout` timer).
* `GoW` — the skip-path routing (`shouldSkipRebuild`), the reduced pipeline
  (`runPreCommandsOnly`), the full pipeline (`rebuildAndRestartGoApp`) and the
  crash-recovery pipeline (`restartGoApp`) as functions of the outcomes of the
  external commands, recording the externally visible actions in order.
-/

namespace GoWatch

/-- Per-child state visible to the plugin: `live` — the OS process has been
created by `spawn()` and its `exit` event has not yet been delivered;
`confirmed` — the `spawn` event has been delivered (the `onSpawn` handler ran);
`ready` — the `appReady` flag of the `runGoApp` invocation that spawned it. -/
structure ProcSt where
  live : Bool
  confirmed : Bool
  ready : Bool
deriving DecidableEq, Repr

/-- Which callback a debounce timer runs: `rebuildAndRestartGoApp` or
`runPreCommandsOnly` (the two classes of triggers). -/
inductive TAct
  | rebuild
  | preOnly
deriving DecidableEq, Repr

/-- Continuation attached to a pending `killGoProcess` promise: either the
`.then` of `debouncedRebuild`/`debouncedPreCommandsOnly` (set the debounce
timer) or the `await` inside a pipeline invocation (resume that pipeline). -/
inductive KCont
  | schedTimer (a : TAct)
  | resumePipe (i : Nat)
deriving DecidableEq, Repr

/-- A pending `killGoProcess` invocation: the process it captured as
`processToKill` and the continuation waiting on its promise. -/
structure KillOp where
  target : Nat
  cont : KCont
deriving DecidableEq, Repr

/-- Suspension point of one pipeline invocation.  `working` covers the awaited
pre-commands-and-build section (`executePreCommands` then `buildGoApp` for the
full pipeline; `executePreCommands` for the reduced one): these are consecutive
awaited external commands with no plugin-state effects between them. -/
inductive Phase
  | awaitKill
  | working
  | awaitSpawn (pid : Nat)
  | awaitReady (pid : Nat)
  | finished
deriving DecidableEq, Repr

/-- Kind of a pipeline invocation. -/
inductive PipeKind
  | rebuild
  | preOnly
deriving DecidableEq, Repr

/-- One in-flight pipeline invocation (`rebuildAndRestartGoApp` or
`runPreCommandsOnly` frame). -/
structure Pipe where
  id : Nat
  kind : PipeKind
  phase : Phase
deriving DecidableEq, Repr

/-- State of the plugin closure plus the event-loop environment.
`goProcess`, `isKilling`, `isBuildInProgress`, `timerVar` are the module-level
mutable variables (`goProcess`, `isKillingProcess`, `isBuildInProgress`,
`buildTimeout`).  `timers` are the pending debounce timeouts actually
registered with the event loop (`timerVar` holds only the most recent handle,
as the shared variable does).  `procs` are the spawned children, `pipes` the
in-flight pipeline invocations, `kills` the pending `killGoProcess` promises.
`restarts` records each `setTimeout(restartGoApp, 1000)` scheduling (the
delay), `wsReloads`/`wsErrors` count host notifications, `warns` counts the
`onSpawn` overwrite warning. -/
structure Sys where
  goProcess : Option Nat
  isKilling : Bool
  isBuildInProgress : Bool
  timers : List (Nat × TAct)
  timerVar : Option Nat
  nextTimer : Nat
  procs : List (Nat × ProcSt)
  nextPid : Nat
  pipes : List Pipe
  nextPipe : Nat
  kills : List KillOp
  restarts : List Nat
  wsReloads : Nat
  wsErrors : Nat
  warns : Nat
deriving DecidableEq, Repr

/-- Configuration relevant to the trace model: whether a `readyPattern` is
configured (it decides whether `runGoApp` resolves at spawn or waits for the
pattern/timeout). -/
structure Cfg where
  readyPattern : Bool
deriving DecidableEq, Repr

/-- Initial state of the plugin closure. -/
def Sys.start : Sys where
  goProcess := none
  isKilling := false
  isBuildInProgress := false
  timers := []
  timerVar := none
  nextTimer := 0
  procs := []
  nextPid := 0
  pipes := []
  nextPipe := 0
  kills := []
  restarts := []
  wsReloads := 0
  wsErrors := 0
  warns := 0

/-- `setTimeout(cb, buildDelay)` assigned to the shared `buildTimeout`
variable: registers a fresh timer and overwrites the variable. -/
def setTimer (a : TAct) (s : Sys) : Sys :=
  { s with timers := s.timers ++ [(s.nextTimer, a)]
           timerVar := some s.nextTimer
           nextTimer := s.nextTimer + 1 }

/-- `clearTimeout(buildTimeout)`: cancels the timer whose handle the variable
currently holds (a no-op on an already-fired or absent handle). -/
def clearTimer (s : Sys) : Sys :=
  { s with timers :=
      match s.timerVar with
      | none => s.timers
      | some id => s.timers.filter (fun t => t.1 ≠ id) }

/-- Update the phase of pipeline `i`. -/
def updPipe (i : Nat) (ph : Phase) (ps : List Pipe) : List Pipe :=
  ps.map (fun p => if p.id = i then { p with phase := ph } else p)

/-- Mark every pipeline currently suspended at phase `src` as finished. -/
def finishPipes (src : Phase) (ps : List Pipe) : List Pipe :=
  ps.map (fun p => if p.phase = src then { p with phase := Phase.finished } else p)

/-- Apply `f` to the state of child `pid`. -/
def updProc (pid : Nat) (f : ProcSt → ProcSt) (ps : List (Nat × ProcSt)) :
    List (Nat × ProcSt) :=
  ps.map (fun q => if q.1 = pid then (q.1, f q.2) else q)

/-- Run the continuation waiting on a resolved `killGoProcess` promise: the
debounce paths set the timer; a pipeline's own `await killGoProcess()`
continues into pre-commands and build (`working`). -/
def runKCont (k : KCont) (s : Sys) : Sys :=
  match k with
  | .schedTimer a => setTimer a s
  | .resumePipe i => { s with pipes := updPipe i Phase.working s.pipes }

/-- `killGoProcess()` followed by continuation `k`.  With no tracked child the
promise resolves immediately (the continuation runs as a microtask of the same
event-loop turn).  With a tracked child, `isKillingProcess` is set and the
continuation waits for that child's exit; signal sending and the grace timer
are modelled in `KillModel`. -/
def killWith (k : KCont) (s : Sys) : Sys :=
  match s.goProcess with
  | none => runKCont k s
  | some p => { s with isKilling := true, kills := s.kills ++ [⟨p, k⟩] }

/-- Kind of pipeline a timer class starts. -/
def TAct.kind : TAct → PipeKind
  | .rebuild => .rebuild
  | .preOnly => .preOnly

/-- Start a pipeline invocation when a debounce timer fires.  Both
`rebuildAndRestartGoApp` and `runPreCommandsOnly` set `isBuildInProgress`
first; the full pipeline then awaits `killGoProcess()`, the reduced one goes
straight to its pre-commands. -/
def startPipe (k : PipeKind) (s : Sys) : Sys :=
  let i := s.nextPipe
  let s1 := { s with isBuildInProgress := true
                     pipes := s.pipes ++ [⟨i, k, Phase.awaitKill⟩]
                     nextPipe := i + 1 }
  match k with
  | .rebuild => killWith (.resumePipe i) s1
  | .preOnly => { s1 with pipes := updPipe i Phase.working s1.pipes }

/-- `debouncedRebuild` / `debouncedPreCommandsOnly`: clear the shared timer;
if a build is in progress, kill the tracked child and set the timer once the
kill resolves; otherwise set the timer now. -/
def onTrigger (a : TAct) (s : Sys) : Sys :=
  let s1 := clearTimer s
  if s1.isBuildInProgress then killWith (.schedTimer a) s1
  else setTimer a s1

/-- A pending debounce timer fires: remove it and start its pipeline. -/
def onTimerFire (id : Nat) (s : Sys) : Sys :=
  match s.timers.find? (fun t => t.1 = id) with
  | none => s
  | some (_, a) =>
    startPipe a.kind { s with timers := s.timers.filter (fun t => t.1 ≠ id) }

/-- The awaited pre-commands-and-build section of pipeline `i` completes
successfully.  The full pipeline calls `spawn()` (creating the OS process; its
`spawn` event is delivered later) and suspends in `runGoApp`; the reduced
pipeline sends the reload notification and clears `isBuildInProgress`. -/
def onBuildDone (i : Nat) (s : Sys) : Sys :=
  match s.pipes.find? (fun p => p.id = i) with
  | none => s
  | some p =>
    if p.phase = Phase.working then
      match p.kind with
      | .rebuild =>
        let pid := s.nextPid
        { s with procs := s.procs ++ [(pid, ⟨true, false, false⟩)]
                 nextPid := pid + 1
                 pipes := updPipe i (Phase.awaitSpawn pid) s.pipes }
      | .preOnly =>
        { s with pipes := updPipe i Phase.finished s.pipes
                 wsReloads := s.wsReloads + 1
                 isBuildInProgress := false }
    else s

/-- The awaited pre-commands-and-build section of pipeline `i` fails (first
failing pre-command, directory creation failure or non-zero build exit): the
catch block sends the error notification and clears `isBuildInProgress`. -/
def onBuildFail (i : Nat) (s : Sys) : Sys :=
  match s.pipes.find? (fun p => p.id = i) with
  | none => s
  | some p =>
    if p.phase = Phase.working then
      { s with pipes := updPipe i Phase.finished s.pipes
               wsErrors := s.wsErrors + 1
               isBuildInProgress := false }
    else s

/-- The `spawn` event of child `pid` is delivered — the `onSpawn` handler:
warn if a different tracked process is being overwritten, set
`goProcess := spawnedProcess`; with no `readyPattern` resolve `runGoApp`
immediately (pipeline sends reload and clears `isBuildInProgress`), otherwise
start waiting for the pattern. -/
def onSpawnEv (cfg : Cfg) (pid : Nat) (s : Sys) : Sys :=
  if s.pipes.any (fun p => p.phase = Phase.awaitSpawn pid) then
    let w := match s.goProcess with
      | some q => if q ≠ pid then s.warns + 1 else s.warns
      | none => s.warns
    let s1 := { s with warns := w
                       goProcess := some pid
                       procs := updProc pid (fun pr => { pr with confirmed := true }) s.procs }
    if cfg.readyPattern then
      { s1 with pipes := s1.pipes.map (fun p =>
          if p.phase = Phase.awaitSpawn pid then { p with phase := Phase.awaitReady pid } else p) }
    else
      { s1 with procs := updProc pid (fun pr => { pr with ready := true }) s1.procs
                pipes := finishPipes (Phase.awaitSpawn pid) s1.pipes
                wsReloads := s1.wsReloads + 1
                isBuildInProgress := false }
  else s

/-- Readiness of child `pid` is resolved (pattern matched in its stdout, or
the ready timeout fired): `appReady := true`, the pipeline awaiting it sends
the reload notification and clears `isBuildInProgress`.  The distinction
between match and timeout is modelled in `ReadyModel`. -/
def onReadyEv (pid : Nat) (s : Sys) : Sys :=
  if s.pipes.any (fun p => p.phase = Phase.awaitReady pid) then
    { s with procs := updProc pid (fun pr => { pr with ready := true }) s.procs
             pipes := finishPipes (Phase.awaitReady pid) s.pipes
             wsReloads := s.wsReloads + 1
             isBuildInProgress := false }
  else s

/-- First part of the `runGoApp` exit handler: if the exiting child is the
tracked one, classify the exit — unexpected (`!isKillingProcess`) and
post-ready schedules `restartGoApp` after 1000 ms — and clear the slot. -/
def exitTracked (pid : Nat) (pr : ProcSt) (s : Sys) : Sys :=
  if s.goProcess = some pid then
    let sR := if !s.isKilling && pr.ready then { s with restarts := s.restarts ++ [1000] } else s
    { sR with goProcess := none }
  else s

/-- Tail of the `runGoApp` exit handler: an exit before readiness rejects the
`runGoApp` promise; the catch block of the pipeline awaiting readiness sends
the error notification and clears `isBuildInProgress`. -/
def exitReject (pid : Nat) (pr : ProcSt) (s : Sys) : Sys :=
  if pr.ready then s
  else if s.pipes.any (fun p => p.phase = Phase.awaitReady pid) then
    { s with pipes := finishPipes (Phase.awaitReady pid) s.pipes
             wsErrors := s.wsErrors + 1
             isBuildInProgress := false }
  else s

/-- Pending `killGoProcess` `once('exit')` handlers for this child:
`cleanupAndResolve` (clear the slot if still this child, clear
`isKillingProcess`, resolve the promise) and then the continuations of the
resolved promises, in order. -/
def exitKills (pid : Nat) (s : Sys) : Sys :=
  if (s.kills.filter (fun k => k.target = pid)).isEmpty then s
  else
    (s.kills.filter (fun k => k.target = pid)).foldl (fun st k => runKCont k.cont st)
      { s with kills := s.kills.filter (fun k => ¬ k.target = pid)
               isKilling := false
               goProcess := if s.goProcess = some pid then none else s.goProcess }

/-- The `exit` event of child `pid` is delivered.  Listeners run in
attachment order: first the `runGoApp` exit handler (`exitTracked` then
`exitReject`), then every pending `killGoProcess` handler (`exitKills`).
Guarded on the child being live and spawn-confirmed. -/
def onExitEv (pid : Nat) (s : Sys) : Sys :=
  match s.procs.lookup pid with
  | none => s
  | some pr =>
    if pr.live && pr.confirmed then
      exitKills pid (exitReject pid pr (exitTracked pid pr
        { s with procs := updProc pid (fun q => { q with live := false }) s.procs }))
    else s

/-- Events at which control returns to the event loop. -/
inductive Ev
  | trigger (a : TAct)
  | timerFire (id : Nat)
  | buildDone (i : Nat)
  | buildFail (i : Nat)
  | spawned (pid : Nat)
  | becameReady (pid : Nat)
  | exited (pid : Nat)
deriving DecidableEq, Repr

/-- One synchronous segment of the event loop. -/
def step (cfg : Cfg) (s : Sys) : Ev → Sys
  | .trigger a => onTrigger a s
  | .timerFire id => onTimerFire id s
  | .buildDone i => onBuildDone i s
  | .buildFail i => onBuildFail i s
  | .spawned pid => onSpawnEv cfg pid s
  | .becameReady pid => onReadyEv pid s
  | .exited pid => onExitEv pid s

/-- Run a trace of events from the initial plugin state. -/
def runEvs (cfg : Cfg) (evs : List Ev) : Sys :=
  evs.foldl (step cfg) Sys.start

/-- Pids currently tracked in the `goProcess` slot. -/
def trackedPids (s : Sys) : List Nat :=
  s.goProcess.toList

/-- Number of live (spawned, not yet exited) children. -/
def liveChildCount (s : Sys) : Nat :=
  (s.procs.filter (fun q => q.2.live)).length

end GoWatch

/-- Trace building one tracked child: initial-style trigger, debounce fire,
build success, spawn event. -/
def GoWatch.oneChildTrace : List GoWatch.Ev :=
  [GoWatch.Ev.trigger GoWatch.TAct.rebuild, GoWatch.Ev.timerFire 0,
   GoWatch.Ev.buildDone 0, GoWatch.Ev.spawned 0]

/-- Trace in which a second trigger arrives while pipeline 0's build is in
flight (before it has spawned): the new pipeline is scheduled and started,
both builds complete, and both pipelines spawn a child. -/
def GoWatch.raceTrace : List GoWatch.Ev :=
  [GoWatch.Ev.trigger GoWatch.TAct.rebuild, GoWatch.Ev.timerFire 0,
   GoWatch.Ev.trigger GoWatch.TAct.rebuild, GoWatch.Ev.timerFire 1,
   GoWatch.Ev.buildDone 0, GoWatch.Ev.spawned 0,
   GoWatch.Ev.buildDone 1, GoWatch.Ev.spawned 1]

/-- Extension of the race trace by the exit of the overwritten child 0. -/
def GoWatch.raceExitTrace : List GoWatch.Ev :=
  GoWatch.raceTrace ++ [GoWatch.Ev.exited 0]

/-- Trace reaching a state with a build in flight and a tracked child (the
pipeline awaits the ready pattern of child 0), followed by two triggers in
one debounce window and the child's exit resolving both pending kills. -/
def GoWatch.burstTrace : List GoWatch.Ev :=
  [GoWatch.Ev.trigger GoWatch.TAct.rebuild, GoWatch.Ev.timerFire 0,
   GoWatch.Ev.buildDone 0, GoWatch.Ev.spawned 0,
   GoWatch.Ev.trigger GoWatch.TAct.rebuild, GoWatch.Ev.trigger GoWatch.TAct.rebuild,
   GoWatch.Ev.exited 0]

/-- Trace in which the overlapping-pipelines race leaves pipeline 1 building
while child 0 is already tracked and ready; a further trigger starts pipeline
2, which initiates a kill of child 0; pipeline 1 then spawns child 1, which
becomes the tracked child while the kill of child 0 is still pending. -/
def GoWatch.killRaceTrace : List GoWatch.Ev :=
  [GoWatch.Ev.trigger GoWatch.TAct.rebuild, GoWatch.Ev.timerFire 0,
   GoWatch.Ev.trigger GoWatch.TAct.rebuild, GoWatch.Ev.timerFire 1,
   GoWatch.Ev.buildDone 0, GoWatch.Ev.spawned 0,
   GoWatch.Ev.trigger GoWatch.TAct.rebuild, GoWatch.Ev.timerFire 2,
   GoWatch.Ev.buildDone 1, GoWatch.Ev.spawned 1]

namespace KillModel

/-!
The internal machine of one `killGoProcess()` invocation on a tracked child
with a pid.  Node semantics of `ChildProcess`: `subprocess.kill(sig)` returns
whether the signal was sent successfully, and `subprocess.killed` is set to
`true` after `kill()` successfully sent a signal (it does not mean the process
has exited).  The grace timer's guard is `processToKill && !processToKill.killed`.
-/

/-- State of one `killGoProcess` invocation: counts of SIGTERM/SIGKILL sends,
Node's `killed` flag of the child handle, whether the 3000 ms grace timer is
still pending, whether the promise has resolved, and which observation (exit
or error event) has been delivered. -/
structure KSt where
  sigterms : Nat
  sigkills : Nat
  killedFlag : Bool
  graceActive : Bool
  resolved : Bool
  exitObserved : Bool
  errObserved : Bool
deriving DecidableEq, Repr

/-- Entry of `killGoProcess` with a tracked child: attach exit/error handlers,
send SIGTERM (`sigtermOk` is whether the send succeeds); on a failed send
`cleanupAndResolve` runs immediately ("assumed exited") and the grace timer is
never set; on a successful send Node marks the handle `killed` and the 3000 ms
grace timer is registered. -/
def killEntry (sigtermOk : Bool) : KSt :=
  if sigtermOk then
    { sigterms := 1, sigkills := 0, killedFlag := true, graceActive := true
      resolved := false, exitObserved := false, errObserved := false }
  else
    { sigterms := 1, sigkills := 0, killedFlag := false, graceActive := false
      resolved := true, exitObserved := false, errObserved := false }

/-- Events delivered to the kill machine: the grace timer fires, the child's
`exit` event arrives, the child's `error` event arrives. -/
inductive KEv
  | graceFires
  | exitObs
  | errObs
deriving DecidableEq, Repr

/-- One event of the kill machine.  `cleanupAndResolve` clears the grace
timer, so the timer can only fire while unresolved; its body sends SIGKILL
only under `!processToKill.killed`. -/
def kstep (s : KSt) : KEv → KSt
  | .graceFires =>
    if s.graceActive && !s.resolved then
      if !s.killedFlag then
        { s with graceActive := false, sigkills := s.sigkills + 1, killedFlag := true }
      else { s with graceActive := false }
    else s
  | .exitObs =>
    if !s.resolved then
      { s with exitObserved := true, resolved := true, graceActive := false }
    else { s with exitObserved := true }
  | .errObs =>
    if !s.resolved then
      { s with errObserved := true, resolved := true, graceActive := false }
    else s

/-- Run the kill machine on a sequence of events. -/
def krun (sigtermOk : Bool) (evs : List KEv) : KSt :=
  evs.foldl kstep (killEntry sigtermOk)

end KillModel

namespace ReadyModel

/-!
The readiness monitor of `runGoApp` when a `readyPattern` is configured: the
stdout `data` handler tests each chunk against the pattern, and the
`readyTimeout` timer set in `onSpawn` resolves with a distinct timeout log if
no match arrived.  Times are milliseconds since the `spawn` event.
-/

/-- State of the monitor: `appReady`, when (and whether) the `runGoApp`
promise resolved, whether it rejected, whether the ready timer is still
pending, and how many match/timeout log lines were produced. -/
structure RSt where
  appReady : Bool
  resolvedAt : Option Nat
  rejected : Bool
  timerActive : Bool
  matchLogs : Nat
  timeoutLogs : Nat
deriving DecidableEq, Repr

/-- State right after `onSpawn` when a pattern is configured: not ready,
unresolved, ready timer registered. -/
def rstart : RSt :=
  { appReady := false, resolvedAt := none, rejected := false
    timerActive := true, matchLogs := 0, timeoutLogs := 0 }

/-- Events: a stdout chunk at time `t` whose pattern test result is `m`, or
the ready timer firing (at time `readyTimeout`). -/
inductive REv
  | chunk (t : Nat) (m : Bool)
  | timerFires
deriving DecidableEq, Repr

/-- One event of the monitor.  The data handler resolves on the first
matching chunk (`!appReady && readyPattern.test(output)`); the timer handler
logs the timeout, marks ready and resolves — it does not reject. -/
def rstep (readyTimeout : Nat) (s : RSt) : REv → RSt
  | .chunk t m =>
    if !s.appReady && m then
      { s with appReady := true, timerActive := false
               matchLogs := s.matchLogs + 1, resolvedAt := some t }
    else s
  | .timerFires =>
    if s.timerActive then
      if !s.appReady then
        { s with timeoutLogs := s.timeoutLogs + 1, appReady := true
                 resolvedAt := some readyTimeout, timerActive := false }
      else { s with timerActive := false }
    else s

/-- Run the monitor from the post-spawn state. -/
def rrun (readyTimeout : Nat) (evs : List REv) : RSt :=
  evs.foldl (rstep readyTimeout) rstart

end ReadyModel

namespace GoW

/-!
Functional models of the routing and pipeline bodies, parameterised by the
outcomes of the external commands, recording the externally visible actions
in order.
-/

/-- JavaScript `String.prototype.startsWith`, on the character sequence. -/
def jsStartsWith (s pre : String) : Bool :=
  pre.data.isPrefixOf s.data

/-- JavaScript `String.prototype.endsWith`, on the character sequence. -/
def jsEndsWith (s suf : String) : Bool :=
  suf.data.isSuffixOf s.data

/-- Path separator (POSIX `path.sep`). -/
def sep : String := "/"

/-- Append the separator unless the directory already ends with it
(`skipDir.endsWith(path.sep) ? skipDir : skipDir + path.sep`). -/
def withSep (d : String) : String :=
  if jsEndsWith d sep then d else d ++ sep

/-- `shouldSkipRebuild`: with no skip directories, never skip; otherwise skip
iff the changed path starts with some resolved skip directory followed by the
separator. -/
def shouldSkipRebuild (skipDirs : List String) (filePath : String) : Bool :=
  if skipDirs.isEmpty then false
  else skipDirs.any (fun d => jsStartsWith filePath (withSep d))

/-- Which pipeline a watcher event is routed to (`add`/`change`/`unlink`
handlers all route identically). -/
inductive Route
  | preCommandsOnly
  | fullRebuild
deriving DecidableEq, Repr

/-- Routing of one watcher event by changed path. -/
def routeEvent (skipDirs : List String) (filePath : String) : Route :=
  if shouldSkipRebuild skipDirs filePath then .preCommandsOnly else .fullRebuild

/-- Externally visible actions of a pipeline invocation, in order. -/
inductive Act
  | preCmd (c : String)
  | buildCmd
  | spawnChild
  | killChild
  | reload
  | errorNotif (msg : String)
  | schedule (delayMs : Nat)
deriving DecidableEq, Repr

/-- Message of the error `child_process.exec` passes to its callback on a
non-zero exit: `"Command failed: " + command + "\n" + stderr` (Node
semantics; the captured stderr is part of the message). -/
def execErrMsg (cmd stderr : String) : String :=
  "Command failed: " ++ cmd ++ "\n" ++ stderr

/-- Message of the error notification sent by `rebuildAndRestartGoApp`'s
catch block. -/
def goAppErr (m : String) : String :=
  "Go app error: " ++ m

/-- Message of the error notification sent by `runPreCommandsOnly`'s catch
block. -/
def preErr (m : String) : String :=
  "Pre-commands error: " ++ m

/-- Outcomes of the external world for one pipeline invocation:
`preFail c = some stderr` iff pre-command `c` exits non-zero with that
stderr; `buildOutcome` is the build command's result (captured stderr on
failure, artifact path on success); `runOutcome` is the result of `runGoApp`
(readiness, or the message of its rejection). -/
structure Env where
  preCmds : List String
  preFail : String → Option String
  buildCmd : String
  buildOutcome : Except String String
  dontRun : Bool
  runOutcome : Except String Unit

/-- `executePreCommands`: run the pre-commands in order; stop at the first
failure, whose rethrown error carries the exec message. -/
def execPre (fail : String → Option String) : List String → List Act × Option String
  | [] => ([], none)
  | c :: cs =>
    match fail c with
    | some stderr => ([Act.preCmd c], some (execErrMsg c stderr))
    | none =>
      let r := execPre fail cs
      (Act.preCmd c :: r.1, r.2)

/-- `buildGoApp` outcome: on a non-zero build exit the promise rejects with
the exec error (whose message carries the captured stderr). -/
def buildGoApp (e : Env) : Except String String :=
  match e.buildOutcome with
  | .error stderr => .error (execErrMsg e.buildCmd stderr)
  | .ok bin => .ok bin

/-- `runPreCommandsOnly`: pre-commands, then on success the full-reload
notification, on failure the error notification.  It touches neither the
build nor the tracked child. -/
def runPreCommandsOnly (fail : String → Option String) (preCmds : List String) :
    List Act :=
  match execPre fail preCmds with
  | (as, none) => as ++ [Act.reload]
  | (as, some m) => as ++ [Act.errorNotif (preErr m)]

/-- Result of a pipeline invocation: the tracked child afterwards and the
visible actions in order. -/
structure PResult where
  goProcess : Option Nat
  acts : List Act
deriving Repr

/-- The `await killGoProcess()` step at the head of a pipeline: with a
tracked child, signal it and await its exit (the slot is cleared by the exit
handlers); with none, resolve at once. -/
def killStep (g : Option Nat) : Option Nat × List Act :=
  match g with
  | none => (none, [])
  | some _ => (none, [Act.killChild])

/-- `rebuildAndRestartGoApp` as a function of the pre-invocation tracked
child `g0`, the pid `newPid` a successful spawn would get, and the external
outcomes: kill, pre-commands, build, then either the dont-run reload, or
spawn-and-await-readiness with reload on success; any failure is caught and
sent as one error notification. -/
def rebuildAndRestartGoApp (g0 : Option Nat) (newPid : Nat) (e : Env) : PResult :=
  let k := killStep g0
  match execPre e.preFail e.preCmds with
  | (as, some m) => { goProcess := k.1, acts := k.2 ++ as ++ [Act.errorNotif (goAppErr m)] }
  | (as, none) =>
    match buildGoApp e with
    | .error m =>
      { goProcess := k.1, acts := k.2 ++ as ++ [Act.buildCmd, Act.errorNotif (goAppErr m)] }
    | .ok _ =>
      if e.dontRun then
        { goProcess := k.1, acts := k.2 ++ as ++ [Act.buildCmd, Act.reload] }
      else
        match e.runOutcome with
        | .ok _ =>
          { goProcess := some newPid
            acts := k.2 ++ as ++ [Act.buildCmd, Act.spawnChild, Act.reload] }
        | .error m =>
          { goProcess := none
            acts := k.2 ++ as ++ [Act.buildCmd, Act.spawnChild, Act.errorNotif (goAppErr m)] }

/-- `restartGoApp` (crash recovery) as a function of the same data: the same
kill/pre-commands/build/run sequence, but no host notification anywhere —
its catch block only logs and schedules another attempt after 5000 ms. -/
def restartGoApp (g0 : Option Nat) (newPid : Nat) (e : Env) : PResult :=
  let k := killStep g0
  match execPre e.preFail e.preCmds with
  | (as, some _) => { goProcess := k.1, acts := k.2 ++ as ++ [Act.schedule 5000] }
  | (as, none) =>
    match buildGoApp e with
    | .error _ =>
      { goProcess := k.1, acts := k.2 ++ as ++ [Act.buildCmd, Act.schedule 5000] }
    | .ok _ =>
      if e.dontRun then
        { goProcess := k.1, acts := k.2 ++ as ++ [Act.buildCmd] }
      else
        match e.runOutcome with
        | .ok _ =>
          { goProcess := some newPid, acts := k.2 ++ as ++ [Act.buildCmd, Act.spawnChild] }
        | .error _ =>
          { goProcess := none
            acts := k.2 ++ as ++ [Act.buildCmd, Act.spawnChild, Act.schedule 5000] }

/-- Whether an action is a notification to the host (Vite websocket). -/
def isHostNotif : Act → Bool
  | .reload => true
  | .errorNotif _ => true
  | _ => false

/-- Whether a `restartGoApp` invocation fails (any stage). -/
def restartFails (e : Env) : Bool :=
  (execPre e.preFail e.preCmds).2.isSome
    || (match e.buildOutcome with | .error _ => true | .ok _ => false)
    || (!e.dontRun && (match e.runOutcome with | .error _ => true | .ok _ => false))

end GoW

/-! ### Helper lemmas -/

lemma GoW.execPre_mem (fail : String → Option String) :
    ∀ (cs : List String), ∀ a ∈ (GoW.execPre fail cs).1, ∃ c, a = GoW.Act.preCmd c := by
  intro cs
  induction cs with
  | nil => intro a ha; simp [GoW.execPre] at ha
  | cons c cs ih =>
    intro a ha
    simp only [GoW.execPre] at ha
    cases h : fail c with
    | some st => rw [h] at ha; simp at ha; exact ⟨c, ha⟩
    | none =>
      rw [h] at ha
      simp at ha
      rcases ha with ha | ha
      · exact ⟨c, ha⟩
      · exact ih a ha

lemma GoW.execPre_allOk (fail : String → Option String) :
    ∀ (cs : List String), (∀ c ∈ cs, fail c = none) →
      GoW.execPre fail cs = (cs.map GoW.Act.preCmd, none) := by
  intro cs
  induction cs with
  | nil => intro _; rfl
  | cons c cs ih =>
    intro h
    have hc : fail c = none := h c (by simp)
    simp only [GoW.execPre, hc]
    rw [ih (fun d hd => h d (by simp [hd]))]
    simp

/-- Claim C5: if a readiness pattern is configured and the child's captured
output never matches it before the configured timeout elapses, the start
operation still resolves as ready after exactly the configured timeout (not as
a failure), and a distinct timeout log entry is produced rather than a failure
notification. -/
theorem C5_ready_timeout_resolves (rt : Nat) (chunks : List (Nat × Bool))
    (h : ∀ c ∈ chunks, c.2 = false) :
    (ReadyModel.rrun rt (chunks.map (fun c => ReadyModel.REv.chunk c.1 c.2) ++
        [ReadyModel.REv.timerFires])).resolvedAt = some rt
    ∧ (ReadyModel.rrun rt (chunks.map (fun c => ReadyModel.REv.chunk c.1 c.2) ++
        [ReadyModel.REv.timerFires])).appReady = true
    ∧ (ReadyModel.rrun rt (chunks.map (fun c => ReadyModel.REv.chunk c.1 c.2) ++
        [ReadyModel.REv.timerFires])).rejected = false
    ∧ (ReadyModel.rrun rt (chunks.map (fun c => ReadyModel.REv.chunk c.1 c.2) ++
        [ReadyModel.REv.timerFires])).timeoutLogs = 1
    ∧ (ReadyModel.rrun rt (chunks.map (fun c => ReadyModel.REv.chunk c.1 c.2) ++
        [ReadyModel.REv.timerFires])).matchLogs = 0 := by
  have key : ∀ (cs : List (Nat × Bool)), (∀ c ∈ cs, c.2 = false) →
      List.foldl (ReadyModel.rstep rt) ReadyModel.rstart
        (cs.map (fun c => ReadyModel.REv.chunk c.1 c.2)) = ReadyModel.rstart := by
    intro cs
    induction cs with
    | nil => intro _; rfl
    | cons c cs ih =>
      intro hcs
      have hc : c.2 = false := hcs c (by simp)
      simp only [List.map_cons, List.foldl_cons]
      rw [show ReadyModel.rstep rt ReadyModel.rstart (ReadyModel.REv.chunk c.1 c.2)
            = ReadyModel.rstart by simp [ReadyModel.rstep, hc]]
      exact ih (fun d hd => hcs d (by simp [hd]))
  unfold ReadyModel.rrun
  rw [List.foldl_append, key chunks h]
  simp [ReadyModel.rstep, ReadyModel.rstart]

/-- Witness for C5 at a concrete input: two non-matching chunks, timeout at
700 ms. -/
theorem C5_ready_timeout_resolves_witness :
    ((3, false) ∈ ([(3, false), (9, false)] : List (Nat × Bool)) → (3 = 3 ∧ (false = false)))
    ∧ (ReadyModel.rrun 700 ([(3, false), (9, false)].map
          (fun c => ReadyModel.REv.chunk c.1 c.2) ++
          [ReadyModel.REv.timerFires])).resolvedAt = some 700
    ∧ (ReadyModel.rrun 700 ([(3, false), (9, false)].map
          (fun c => ReadyModel.REv.chunk c.1 c.2) ++
          [ReadyModel.REv.timerFires])).timeoutLogs = 1 := by
  refine ⟨by intro _; exact ⟨rfl, rfl⟩, ?_, ?_⟩
  · exact (C5_ready_timeout_resolves 700 [(3, false), (9, false)] (by decide)).1
  · exact (C5_ready_timeout_resolves 700 [(3, false), (9, false)] (by decide)).2.2.2.1

/-- Claim C6 evaluated at the failing input: the child is signalled with
SIGTERM successfully and does not exit within the grace window; when the grace
timer fires, no SIGKILL is sent (Node's `ChildProcess.killed` flag is already
true after the successful SIGTERM send, so the guard `!processToKill.killed`
is false) and the stop operation is still unresolved — the claim demands
exactly one forceful kill signal here. -/
theorem C6_sigkill_never_sent :
    (KillModel.krun true [KillModel.KEv.graceFires]).sigkills = 0
    ∧ (KillModel.krun true [KillModel.KEv.graceFires]).resolved = false
    ∧ (KillModel.krun true [KillModel.KEv.graceFires]).sigterms = 1
    ∧ (KillModel.krun true [KillModel.KEv.graceFires, KillModel.KEv.exitObs]).resolved = true := by
  decide

/-- Claim C7: a change event whose path lies under a configured skip path —
path-prefix match against the resolved skip directory with a trailing
separator, so `foobar/` does not match skip entry `foo` — never invokes the
build command and never kills or spawns the child; the pre-commands run and,
on their success, a reload notification follows. -/
theorem C7_skip_path (skips : List String) (fp : String)
    (fail : String → Option String) (pres : List String)
    (h : GoW.shouldSkipRebuild skips fp = true) :
    GoW.routeEvent skips fp = GoW.Route.preCommandsOnly
    ∧ GoW.Act.buildCmd ∉ GoW.runPreCommandsOnly fail pres
    ∧ GoW.Act.spawnChild ∉ GoW.runPreCommandsOnly fail pres
    ∧ GoW.Act.killChild ∉ GoW.runPreCommandsOnly fail pres
    ∧ ((∀ c ∈ pres, fail c = none) →
        GoW.runPreCommandsOnly fail pres = pres.map GoW.Act.preCmd ++ [GoW.Act.reload])
    ∧ GoW.shouldSkipRebuild ["/root/foo"] "/root/foobar/main.go" = false := by
  have hmem : ∀ x : GoW.Act, (∀ c, x ≠ GoW.Act.preCmd c) → x ≠ GoW.Act.reload →
      (∀ m, x ≠ GoW.Act.errorNotif m) → x ∉ GoW.runPreCommandsOnly fail pres := by
    intro x hpre hrel herr hx
    unfold GoW.runPreCommandsOnly at hx
    rcases he : GoW.execPre fail pres with ⟨as, err⟩
    rw [he] at hx
    have hin : ∀ a ∈ as, ∃ c, a = GoW.Act.preCmd c := by
      intro a ha
      exact GoW.execPre_mem fail pres a (by rw [he]; exact ha)
    cases err with
    | none =>
      simp at hx
      rcases hx with hx | hx
      · rcases hin x hx with ⟨c, hc⟩; exact hpre c hc
      · exact hrel hx
    | some m =>
      simp at hx
      rcases hx with hx | hx
      · rcases hin x hx with ⟨c, hc⟩; exact hpre c hc
      · exact herr _ hx
  refine ⟨?_, ?_, ?_, ?_, ?_, by decide⟩
  · unfold GoW.routeEvent; rw [h]; rfl
  · exact hmem _ (by intro c h2; cases h2) (by intro h2; cases h2) (by intro m h2; cases h2)
  · exact hmem _ (by intro c h2; cases h2) (by intro h2; cases h2) (by intro m h2; cases h2)
  · exact hmem _ (by intro c h2; cases h2) (by intro h2; cases h2) (by intro m h2; cases h2)
  · intro hok
    unfold GoW.runPreCommandsOnly
    rw [GoW.execPre_allOk fail pres hok]

/-- Witness for C7 at a concrete input: a change under the skip directory
with one succeeding pre-command. -/
theorem C7_skip_path_witness :
    GoW.shouldSkipRebuild ["/r/api"] "/r/api/gen.go" = true
    ∧ GoW.routeEvent ["/r/api"] "/r/api/gen.go" = GoW.Route.preCommandsOnly
    ∧ GoW.Act.buildCmd ∉ GoW.runPreCommandsOnly (fun _ => none) ["protoc gen"]
    ∧ GoW.runPreCommandsOnly (fun _ => none) ["protoc gen"] =
        [GoW.Act.preCmd "protoc gen", GoW.Act.reload] := by
  have h : GoW.shouldSkipRebuild ["/r/api"] "/r/api/gen.go" = true := by decide
  have c := C7_skip_path ["/r/api"] "/r/api/gen.go" (fun _ => none) ["protoc gen"] h
  exact ⟨h, c.1, c.2.1, by
    have := c.2.2.2.2.1 (by intro c hc; rfl)
    simpa using this⟩

/-- Counterexample to claim C8: a full-pipeline invocation starting with a
tracked child (pid 7) whose build fails; the kill step at the head of the
pipeline has already cleared the slot, so `activeChild` does not remain
`some 7` — contradicting "the tracked activeChild remains whatever it was
before". -/
theorem C8_counterexample :
    (GoW.rebuildAndRestartGoApp (some 7) 8
        { preCmds := [], preFail := fun _ => none
          buildCmd := "go build -o dist/go-app main.go"
          buildOutcome := Except.error "undefined: foo"
          dontRun := false, runOutcome := Except.ok () }).goProcess = none
    ∧ ¬ ((GoW.rebuildAndRestartGoApp (some 7) 8
        { preCmds := [], preFail := fun _ => none
          buildCmd := "go build -o dist/go-app main.go"
          buildOutcome := Except.error "undefined: foo"
          dontRun := false, runOutcome := Except.ok () }).goProcess = some 7) := by
  constructor
  · rfl
  · intro h
    simp [GoW.rebuildAndRestartGoApp, GoW.execPre, GoW.buildGoApp, GoW.killStep] at h

/-- Claim C8 as amended: in a full-pipeline invocation whose pre-commands
succeed and whose build command exits non-zero, an error notification carrying
the build's captured stderr is sent, no spawn of the artifact is attempted,
and the tracked child afterwards is none — the kill step at the head of the
invocation has already cleared it, so it equals the pre-invocation value
exactly when that value was already none (e.g. the initial trigger). -/
theorem C8_build_failure (g0 : Option Nat) (newPid : Nat) (e : GoW.Env) (stderr : String)
    (hb : e.buildOutcome = Except.error stderr)
    (hp : (GoW.execPre e.preFail e.preCmds).2 = none) :
    GoW.Act.spawnChild ∉ (GoW.rebuildAndRestartGoApp g0 newPid e).acts
    ∧ GoW.Act.errorNotif (GoW.goAppErr (GoW.execErrMsg e.buildCmd stderr))
        ∈ (GoW.rebuildAndRestartGoApp g0 newPid e).acts
    ∧ (GoW.rebuildAndRestartGoApp g0 newPid e).goProcess = none
    ∧ (g0 = none → (GoW.rebuildAndRestartGoApp g0 newPid e).goProcess = g0) := by
  have hpre : ∀ a ∈ (GoW.execPre e.preFail e.preCmds).1, ∃ c, a = GoW.Act.preCmd c :=
    GoW.execPre_mem e.preFail e.preCmds
  rcases he : GoW.execPre e.preFail e.preCmds with ⟨as, err⟩
  rw [he] at hp hpre
  subst hp
  have hbuild : GoW.buildGoApp e = Except.error (GoW.execErrMsg e.buildCmd stderr) := by
    unfold GoW.buildGoApp; rw [hb]
  have hres : GoW.rebuildAndRestartGoApp g0 newPid e =
      { goProcess := (GoW.killStep g0).1
        acts := (GoW.killStep g0).2 ++ as ++
          [GoW.Act.buildCmd, GoW.Act.errorNotif (GoW.goAppErr (GoW.execErrMsg e.buildCmd stderr))] } := by
    unfold GoW.rebuildAndRestartGoApp
    rw [he, hbuild]
  rw [hres]
  have hkill1 : (GoW.killStep g0).1 = none := by cases g0 <;> rfl
  have hkill2 : GoW.Act.spawnChild ∉ (GoW.killStep g0).2 := by
    cases g0 <;> simp [GoW.killStep]
  refine ⟨?_, ?_, hkill1, fun _ => hkill1.trans (by simp [*])⟩
  · intro hmem
    simp only [List.append_eq, List.mem_append, List.mem_cons, List.not_mem_nil, or_false] at hmem
    rcases hmem with (hmem | hmem) | hmem | hmem
    · exact hkill2 hmem
    · rcases hpre _ hmem with ⟨c, hc⟩; cases hc
    · cases hmem
    · cases hmem
  · simp

/-- Witness for C8's amended theorem at a concrete input: pre-invocation
tracked child pid 7, empty pre-commands, build fails with stderr
`undefined: foo`. -/
theorem C8_build_failure_witness :
    ({ preCmds := [], preFail := fun _ => none
       buildCmd := "go build -o dist/go-app main.go"
       buildOutcome := Except.error "undefined: foo"
       dontRun := false, runOutcome := Except.ok () : GoW.Env }.buildOutcome
        = Except.error "undefined: foo")
    ∧ GoW.Act.spawnChild ∉ (GoW.rebuildAndRestartGoApp (some 7) 8
        { preCmds := [], preFail := fun _ => none
          buildCmd := "go build -o dist/go-app main.go"
          buildOutcome := Except.error "undefined: foo"
          dontRun := false, runOutcome := Except.ok () }).acts
    ∧ GoW.Act.errorNotif (GoW.goAppErr (GoW.execErrMsg "go build -o dist/go-app main.go"
          "undefined: foo"))
        ∈ (GoW.rebuildAndRestartGoApp (some 7) 8
        { preCmds := [], preFail := fun _ => none
          buildCmd := "go build -o dist/go-app main.go"
          buildOutcome := Except.error "undefined: foo"
          dontRun := false, runOutcome := Except.ok () }).acts := by
  have c := C8_build_failure (some 7) 8
    { preCmds := [], preFail := fun _ => none
      buildCmd := "go build -o dist/go-app main.go"
      buildOutcome := Except.error "undefined: foo"
      dontRun := false, runOutcome := Except.ok () } "undefined: foo" rfl rfl
  exact ⟨rfl, c.1, c.2.1⟩

lemma GoW.mem_append3 {x : GoW.Act} {l1 l2 l3 : List GoW.Act}
    (h : x ∈ l1 ++ l2 ++ l3) : x ∈ l1 ∨ x ∈ l2 ∨ x ∈ l3 := by
  rcases List.mem_append.mp h with h1 | h1
  · rcases List.mem_append.mp h1 with h2 | h2
    · exact Or.inl h2
    · exact Or.inr (Or.inl h2)
  · exact Or.inr (Or.inr h1)

/-- Claim C10: a crash-recovery restart (`restartGoApp`) sends no
notification of any kind to the host — no reload when the recovered child
becomes ready and no error notification on failure; on failure it only logs
and reschedules itself after 5000 ms. -/
theorem C10_restart_silent (g0 : Option Nat) (newPid : Nat) (e : GoW.Env) :
    (∀ a ∈ (GoW.restartGoApp g0 newPid e).acts, GoW.isHostNotif a = false)
    ∧ (GoW.restartFails e = true →
        GoW.Act.schedule 5000 ∈ (GoW.restartGoApp g0 newPid e).acts) := by
  have hpre : ∀ a ∈ (GoW.execPre e.preFail e.preCmds).1, ∃ c, a = GoW.Act.preCmd c :=
    GoW.execPre_mem e.preFail e.preCmds
  have hkillN : ∀ a ∈ (GoW.killStep g0).2, GoW.isHostNotif a = false := by
    cases g0 <;> simp [GoW.killStep, GoW.isHostNotif]
  have hpreN : ∀ a ∈ (GoW.execPre e.preFail e.preCmds).1, GoW.isHostNotif a = false := by
    intro a ha
    rcases hpre a ha with ⟨c, hc⟩
    rw [hc]; rfl
  rcases he : GoW.execPre e.preFail e.preCmds with ⟨as, err⟩
  rw [he] at hpreN
  have key : ∀ tail : List GoW.Act, (∀ a ∈ tail, GoW.isHostNotif a = false) →
      ∀ a ∈ (GoW.killStep g0).2 ++ as ++ tail, GoW.isHostNotif a = false := by
    intro tail ht a ha
    rcases GoW.mem_append3 ha with ha | ha | ha
    · exact hkillN a ha
    · exact hpreN a ha
    · exact ht a ha
  unfold GoW.restartGoApp GoW.restartFails
  rw [he]
  cases err with
  | some m =>
    exact ⟨key _ (by decide), fun _ => by simp⟩
  | none =>
    cases hb : e.buildOutcome with
    | error m =>
      have hbg : GoW.buildGoApp e = Except.error (GoW.execErrMsg e.buildCmd m) := by
        unfold GoW.buildGoApp; rw [hb]
      rw [hbg]
      exact ⟨key _ (by decide), fun _ => by simp⟩
    | ok bin =>
      have hbg : GoW.buildGoApp e = Except.ok bin := by
        unfold GoW.buildGoApp; rw [hb]
      rw [hbg]
      cases hd : e.dontRun with
      | true =>
        exact ⟨key _ (by decide), fun hf => by simp [hd] at hf⟩
      | false =>
        cases hr : e.runOutcome with
        | ok u =>
          exact ⟨key _ (by decide), fun hf => by simp [hd, hr] at hf⟩
        | error m =>
          exact ⟨key _ (by decide), fun _ => by simp⟩

/-- Witness for C10 at a concrete input: recovery from a tracked child pid 3
whose rebuild fails; no host notification appears and a 5000 ms retry is
scheduled. -/
theorem C10_restart_silent_witness :
    (∀ a ∈ (GoW.restartGoApp (some 3) 4
        { preCmds := ["gen"], preFail := fun _ => none
          buildCmd := "go build -o dist/go-app main.go"
          buildOutcome := Except.error "syntax error"
          dontRun := false, runOutcome := Except.ok () }).acts,
        GoW.isHostNotif a = false)
    ∧ GoW.Act.schedule 5000 ∈ (GoW.restartGoApp (some 3) 4
        { preCmds := ["gen"], preFail := fun _ => none
          buildCmd := "go build -o dist/go-app main.go"
          buildOutcome := Except.error "syntax error"
          dontRun := false, runOutcome := Except.ok () }).acts := by
  have c := C10_restart_silent (some 3) 4
    { preCmds := ["gen"], preFail := fun _ => none
      buildCmd := "go build -o dist/go-app main.go"
      buildOutcome := Except.error "syntax error"
      dontRun := false, runOutcome := Except.ok () }
  exact ⟨c.1, c.2 (by decide)⟩

/-! ### Field-preservation lemmas for the trace model -/

@[simp] lemma GoWatch.clearTimer_goProcess (s : GoWatch.Sys) :
    (GoWatch.clearTimer s).goProcess = s.goProcess := rfl

@[simp] lemma GoWatch.clearTimer_isKilling (s : GoWatch.Sys) :
    (GoWatch.clearTimer s).isKilling = s.isKilling := rfl

@[simp] lemma GoWatch.clearTimer_isBuildInProgress (s : GoWatch.Sys) :
    (GoWatch.clearTimer s).isBuildInProgress = s.isBuildInProgress := rfl

@[simp] lemma GoWatch.clearTimer_kills (s : GoWatch.Sys) :
    (GoWatch.clearTimer s).kills = s.kills := rfl

@[simp] lemma GoWatch.clearTimer_pipes (s : GoWatch.Sys) :
    (GoWatch.clearTimer s).pipes = s.pipes := rfl

@[simp] lemma GoWatch.clearTimer_nextTimer (s : GoWatch.Sys) :
    (GoWatch.clearTimer s).nextTimer = s.nextTimer := rfl

@[simp] lemma GoWatch.runKCont_goProcess (k : GoWatch.KCont) (s : GoWatch.Sys) :
    (GoWatch.runKCont k s).goProcess = s.goProcess := by
  cases k <;> rfl

@[simp] lemma GoWatch.runKCont_isKilling (k : GoWatch.KCont) (s : GoWatch.Sys) :
    (GoWatch.runKCont k s).isKilling = s.isKilling := by
  cases k <;> rfl

@[simp] lemma GoWatch.runKCont_kills (k : GoWatch.KCont) (s : GoWatch.Sys) :
    (GoWatch.runKCont k s).kills = s.kills := by
  cases k <;> rfl

@[simp] lemma GoWatch.runKCont_restarts (k : GoWatch.KCont) (s : GoWatch.Sys) :
    (GoWatch.runKCont k s).restarts = s.restarts := by
  cases k <;> rfl

@[simp] lemma GoWatch.runKCont_wsErrors (k : GoWatch.KCont) (s : GoWatch.Sys) :
    (GoWatch.runKCont k s).wsErrors = s.wsErrors := by
  cases k <;> rfl

@[simp] lemma GoWatch.foldKC_goProcess (ks : List GoWatch.KillOp) :
    ∀ s : GoWatch.Sys,
      (ks.foldl (fun st k => GoWatch.runKCont k.cont st) s).goProcess = s.goProcess := by
  induction ks with
  | nil => intro s; rfl
  | cons k ks ih => intro s; rw [List.foldl_cons, ih, GoWatch.runKCont_goProcess]

@[simp] lemma GoWatch.foldKC_isKilling (ks : List GoWatch.KillOp) :
    ∀ s : GoWatch.Sys,
      (ks.foldl (fun st k => GoWatch.runKCont k.cont st) s).isKilling = s.isKilling := by
  induction ks with
  | nil => intro s; rfl
  | cons k ks ih => intro s; rw [List.foldl_cons, ih, GoWatch.runKCont_isKilling]

@[simp] lemma GoWatch.foldKC_kills (ks : List GoWatch.KillOp) :
    ∀ s : GoWatch.Sys,
      (ks.foldl (fun st k => GoWatch.runKCont k.cont st) s).kills = s.kills := by
  induction ks with
  | nil => intro s; rfl
  | cons k ks ih => intro s; rw [List.foldl_cons, ih, GoWatch.runKCont_kills]

@[simp] lemma GoWatch.foldKC_restarts (ks : List GoWatch.KillOp) :
    ∀ s : GoWatch.Sys,
      (ks.foldl (fun st k => GoWatch.runKCont k.cont st) s).restarts = s.restarts := by
  induction ks with
  | nil => intro s; rfl
  | cons k ks ih => intro s; rw [List.foldl_cons, ih, GoWatch.runKCont_restarts]

@[simp] lemma GoWatch.foldKC_wsErrors (ks : List GoWatch.KillOp) :
    ∀ s : GoWatch.Sys,
      (ks.foldl (fun st k => GoWatch.runKCont k.cont st) s).wsErrors = s.wsErrors := by
  induction ks with
  | nil => intro s; rfl
  | cons k ks ih => intro s; rw [List.foldl_cons, ih, GoWatch.runKCont_wsErrors]

@[simp] lemma GoWatch.exitTracked_kills (pid : Nat) (pr : GoWatch.ProcSt) (s : GoWatch.Sys) :
    (GoWatch.exitTracked pid pr s).kills = s.kills := by
  unfold GoWatch.exitTracked
  split
  · split <;> rfl
  · rfl

@[simp] lemma GoWatch.exitTracked_isKilling (pid : Nat) (pr : GoWatch.ProcSt) (s : GoWatch.Sys) :
    (GoWatch.exitTracked pid pr s).isKilling = s.isKilling := by
  unfold GoWatch.exitTracked
  split
  · split <;> rfl
  · rfl

@[simp] lemma GoWatch.exitTracked_pipes (pid : Nat) (pr : GoWatch.ProcSt) (s : GoWatch.Sys) :
    (GoWatch.exitTracked pid pr s).pipes = s.pipes := by
  unfold GoWatch.exitTracked
  split
  · split <;> rfl
  · rfl

@[simp] lemma GoWatch.exitTracked_wsErrors (pid : Nat) (pr : GoWatch.ProcSt) (s : GoWatch.Sys) :
    (GoWatch.exitTracked pid pr s).wsErrors = s.wsErrors := by
  unfold GoWatch.exitTracked
  split
  · split <;> rfl
  · rfl

lemma GoWatch.exitTracked_goProcess_some (pid : Nat) (pr : GoWatch.ProcSt) (s : GoWatch.Sys)
    (h : s.goProcess = some pid) :
    (GoWatch.exitTracked pid pr s).goProcess = none := by
  unfold GoWatch.exitTracked
  rw [if_pos h]

lemma GoWatch.exitTracked_restarts_crash (pid : Nat) (pr : GoWatch.ProcSt) (s : GoWatch.Sys)
    (h : s.goProcess = some pid) (hnk : s.isKilling = false) (hr : pr.ready = true) :
    (GoWatch.exitTracked pid pr s).restarts = s.restarts ++ [1000] := by
  unfold GoWatch.exitTracked
  rw [if_pos h]
  simp [hnk, hr]

lemma GoWatch.exitTracked_restarts_notReady (pid : Nat) (pr : GoWatch.ProcSt) (s : GoWatch.Sys)
    (hr : pr.ready = false) :
    (GoWatch.exitTracked pid pr s).restarts = s.restarts := by
  unfold GoWatch.exitTracked
  split
  · simp [hr]
  · rfl

lemma GoWatch.exitTracked_restarts_killing (pid : Nat) (pr : GoWatch.ProcSt) (s : GoWatch.Sys)
    (hk : s.isKilling = true) :
    (GoWatch.exitTracked pid pr s).restarts = s.restarts := by
  unfold GoWatch.exitTracked
  split
  · simp [hk]
  · rfl

@[simp] lemma GoWatch.exitReject_restarts (pid : Nat) (pr : GoWatch.ProcSt) (s : GoWatch.Sys) :
    (GoWatch.exitReject pid pr s).restarts = s.restarts := by
  unfold GoWatch.exitReject
  split
  · rfl
  · split <;> rfl

@[simp] lemma GoWatch.exitReject_kills (pid : Nat) (pr : GoWatch.ProcSt) (s : GoWatch.Sys) :
    (GoWatch.exitReject pid pr s).kills = s.kills := by
  unfold GoWatch.exitReject
  split
  · rfl
  · split <;> rfl

@[simp] lemma GoWatch.exitReject_isKilling (pid : Nat) (pr : GoWatch.ProcSt) (s : GoWatch.Sys) :
    (GoWatch.exitReject pid pr s).isKilling = s.isKilling := by
  unfold GoWatch.exitReject
  split
  · rfl
  · split <;> rfl

@[simp] lemma GoWatch.exitReject_goProcess (pid : Nat) (pr : GoWatch.ProcSt) (s : GoWatch.Sys) :
    (GoWatch.exitReject pid pr s).goProcess = s.goProcess := by
  unfold GoWatch.exitReject
  split
  · rfl
  · split <;> rfl

lemma GoWatch.exitReject_wsErrors_ready (pid : Nat) (pr : GoWatch.ProcSt) (s : GoWatch.Sys)
    (hr : pr.ready = true) :
    (GoWatch.exitReject pid pr s).wsErrors = s.wsErrors := by
  unfold GoWatch.exitReject
  rw [if_pos hr]

lemma GoWatch.exitReject_wsErrors_reject (pid : Nat) (pr : GoWatch.ProcSt) (s : GoWatch.Sys)
    (hr : pr.ready = false)
    (hany : s.pipes.any (fun p => p.phase = GoWatch.Phase.awaitReady pid) = true) :
    (GoWatch.exitReject pid pr s).wsErrors = s.wsErrors + 1 := by
  unfold GoWatch.exitReject
  rw [if_neg (by simp [hr]), if_pos hany]

lemma GoWatch.exitKills_noPending (pid : Nat) (s : GoWatch.Sys)
    (h : ∀ k ∈ s.kills, ¬ k.target = pid) :
    GoWatch.exitKills pid s = s := by
  unfold GoWatch.exitKills
  have hf : s.kills.filter (fun k => k.target = pid) = [] := by
    rw [List.filter_eq_nil_iff]
    intro a ha
    simpa using h a ha
  rw [hf]
  rfl

@[simp] lemma GoWatch.exitKills_restarts (pid : Nat) (s : GoWatch.Sys) :
    (GoWatch.exitKills pid s).restarts = s.restarts := by
  unfold GoWatch.exitKills
  split
  · rfl
  · rw [GoWatch.foldKC_restarts]

@[simp] lemma GoWatch.exitKills_wsErrors (pid : Nat) (s : GoWatch.Sys) :
    (GoWatch.exitKills pid s).wsErrors = s.wsErrors := by
  unfold GoWatch.exitKills
  split
  · rfl
  · rw [GoWatch.foldKC_wsErrors]

lemma GoWatch.exitKills_goProcess_none (pid : Nat) (s : GoWatch.Sys)
    (h : s.goProcess = none) :
    (GoWatch.exitKills pid s).goProcess = none := by
  unfold GoWatch.exitKills
  split
  · exact h
  · rw [GoWatch.foldKC_goProcess]
    simp [h]

lemma GoWatch.exitKills_kill_inv (pid : Nat) (s : GoWatch.Sys)
    (h : s.isKilling = true → s.kills ≠ []) :
    (GoWatch.exitKills pid s).isKilling = true → (GoWatch.exitKills pid s).kills ≠ [] := by
  unfold GoWatch.exitKills
  split
  · exact h
  · intro hh
    rw [GoWatch.foldKC_isKilling] at hh
    exact absurd hh (by simp)

/-- Claim C1: along every execution trace of the watch session at most one
process is tracked in the `goProcess` slot; the `spawn` event of a child a
pipeline is waiting on replaces the slot with that child; and the exit of the
tracked child (in particular the exit observed by `killGoProcess`) clears the
slot. -/
theorem C1_single_tracked_child (cfg : GoWatch.Cfg) :
    (∀ evs : List GoWatch.Ev,
        (GoWatch.trackedPids (GoWatch.runEvs cfg evs)).length ≤ 1)
    ∧ (∀ (s : GoWatch.Sys) (pid : Nat),
        s.pipes.any (fun p => p.phase = GoWatch.Phase.awaitSpawn pid) = true →
        (GoWatch.step cfg s (GoWatch.Ev.spawned pid)).goProcess = some pid)
    ∧ (∀ (s : GoWatch.Sys) (pid : Nat) (pr : GoWatch.ProcSt),
        s.goProcess = some pid → s.procs.lookup pid = some pr →
        pr.live = true → pr.confirmed = true →
        (GoWatch.step cfg s (GoWatch.Ev.exited pid)).goProcess = none) := by
  refine ⟨?_, ?_, ?_⟩
  · intro evs
    unfold GoWatch.trackedPids
    cases (GoWatch.runEvs cfg evs).goProcess <;> simp
  · intro s pid h
    show (GoWatch.onSpawnEv cfg pid s).goProcess = some pid
    unfold GoWatch.onSpawnEv
    rw [h]
    cases cfg.readyPattern <;> simp
  · intro s pid pr hg hlk hlive hconf
    show (GoWatch.onExitEv pid s).goProcess = none
    unfold GoWatch.onExitEv
    rw [hlk]
    simp only [hlive, hconf, Bool.and_self, if_true]
    apply GoWatch.exitKills_goProcess_none
    rw [GoWatch.exitReject_goProcess]
    exact GoWatch.exitTracked_goProcess_some _ _ _ hg

/-- Witness for C1 at concrete inputs: after a trigger, debounce fire and
build completion the pipeline awaits the spawn of child 0; the spawn event
makes child 0 the tracked slot, and its exit clears the slot. -/
theorem C1_single_tracked_child_witness :
    ((GoWatch.runEvs ⟨false⟩ [GoWatch.Ev.trigger GoWatch.TAct.rebuild,
        GoWatch.Ev.timerFire 0, GoWatch.Ev.buildDone 0]).pipes.any
        (fun p => p.phase = GoWatch.Phase.awaitSpawn 0) = true)
    ∧ (GoWatch.step ⟨false⟩ (GoWatch.runEvs ⟨false⟩ [GoWatch.Ev.trigger GoWatch.TAct.rebuild,
        GoWatch.Ev.timerFire 0, GoWatch.Ev.buildDone 0])
        (GoWatch.Ev.spawned 0)).goProcess = some 0
    ∧ (GoWatch.runEvs ⟨false⟩ GoWatch.oneChildTrace).goProcess = some 0
    ∧ (GoWatch.runEvs ⟨false⟩ GoWatch.oneChildTrace).procs.lookup 0 = some ⟨true, true, true⟩
    ∧ (GoWatch.step ⟨false⟩ (GoWatch.runEvs ⟨false⟩ GoWatch.oneChildTrace)
        (GoWatch.Ev.exited 0)).goProcess = none := by
  refine ⟨by decide, (C1_single_tracked_child ⟨false⟩).2.1 _ 0 (by decide),
    by decide, by decide,
    (C1_single_tracked_child ⟨false⟩).2.2 _ 0 ⟨true, true, true⟩ (by decide) (by decide) rfl rfl⟩

/-- Counterexample to claim C2: a trigger arriving while a build is in flight
but before that pipeline has spawned its child leads to two pipeline
invocations each holding a live child — child 0 (spawned by the first
pipeline, then silently overwritten in the slot with the onSpawn warning) and
child 1 — so the kill-on-trigger rule does not prevent two pipelines from
racing. -/
theorem C2_counterexample :
    ¬ (GoWatch.liveChildCount (GoWatch.runEvs ⟨false⟩ GoWatch.raceTrace) ≤ 1)
    ∧ (GoWatch.runEvs ⟨false⟩ GoWatch.raceTrace).warns = 1
    ∧ (GoWatch.runEvs ⟨false⟩ GoWatch.raceTrace).goProcess = some 1 := by
  decide

/-- Claim C2 as amended: a trigger that arrives while `buildInFlight` is true
starts no pipeline in that turn; it immediately initiates the kill of the
currently tracked child (if any) and schedules the new pipeline only through
the debounce timer set when that kill resolves (or set at once when no child
is tracked).  This does not prevent the in-flight pipeline — if it has not
yet spawned — from later holding a live child alongside the new pipeline's
child (see the counterexample). -/
theorem C2_trigger_during_build (cfg : GoWatch.Cfg) (s : GoWatch.Sys) (a : GoWatch.TAct)
    (h : s.isBuildInProgress = true) :
    (GoWatch.step cfg s (GoWatch.Ev.trigger a)).pipes = s.pipes
    ∧ (∀ p : Nat, s.goProcess = some p →
        (GoWatch.step cfg s (GoWatch.Ev.trigger a)).kills
            = s.kills ++ [⟨p, GoWatch.KCont.schedTimer a⟩]
        ∧ (GoWatch.step cfg s (GoWatch.Ev.trigger a)).isKilling = true
        ∧ (GoWatch.step cfg s (GoWatch.Ev.trigger a)).timers = (GoWatch.clearTimer s).timers)
    ∧ (s.goProcess = none →
        (GoWatch.step cfg s (GoWatch.Ev.trigger a)).kills = s.kills
        ∧ (GoWatch.step cfg s (GoWatch.Ev.trigger a)).timers
            = (GoWatch.clearTimer s).timers ++ [(s.nextTimer, a)]) := by
  have hstep : GoWatch.step cfg s (GoWatch.Ev.trigger a)
      = GoWatch.killWith (GoWatch.KCont.schedTimer a) (GoWatch.clearTimer s) := by
    show GoWatch.onTrigger a s = _
    unfold GoWatch.onTrigger
    simp [h]
  rw [hstep]
  unfold GoWatch.killWith
  cases hgp : s.goProcess with
  | none =>
    rw [GoWatch.clearTimer_goProcess, hgp]
    simp [GoWatch.runKCont, GoWatch.setTimer, hgp]
  | some p =>
    rw [GoWatch.clearTimer_goProcess, hgp]
    simp [hgp]

/-- Witness for C2's amended theorem at a concrete input: a trigger arriving
while pipeline 0 awaits the ready pattern of tracked child 0. -/
theorem C2_trigger_during_build_witness :
    ((GoWatch.runEvs ⟨true⟩ GoWatch.oneChildTrace).isBuildInProgress = true)
    ∧ ((GoWatch.runEvs ⟨true⟩ GoWatch.oneChildTrace).goProcess = some 0)
    ∧ (GoWatch.step ⟨true⟩ (GoWatch.runEvs ⟨true⟩ GoWatch.oneChildTrace)
        (GoWatch.Ev.trigger GoWatch.TAct.rebuild)).pipes
        = (GoWatch.runEvs ⟨true⟩ GoWatch.oneChildTrace).pipes
    ∧ (GoWatch.step ⟨true⟩ (GoWatch.runEvs ⟨true⟩ GoWatch.oneChildTrace)
        (GoWatch.Ev.trigger GoWatch.TAct.rebuild)).kills
        = (GoWatch.runEvs ⟨true⟩ GoWatch.oneChildTrace).kills
            ++ [⟨0, GoWatch.KCont.schedTimer GoWatch.TAct.rebuild⟩]
    ∧ (GoWatch.step ⟨true⟩ (GoWatch.runEvs ⟨true⟩ GoWatch.oneChildTrace)
        (GoWatch.Ev.trigger GoWatch.TAct.rebuild)).isKilling = true := by
  refine ⟨by decide, by decide,
    (C2_trigger_during_build ⟨true⟩ _ _ (by decide)).1,
    ((C2_trigger_during_build ⟨true⟩ _ _ (by decide)).2.1 0 (by decide)).1,
    ((C2_trigger_during_build ⟨true⟩ _ _ (by decide)).2.1 0 (by decide)).2.1⟩

/-- Counterexample to claim C3: after the race trace, child 0 is live, ready
and not subject to any kill (`killInProgress` unset, no pending kill), yet its
unexpected exit triggers no RestartLoop invocation at all — because the slot
was overwritten with child 1, the exit handler only logs for a no-longer
tracked instance.  The claim demands exactly one restart for every
post-ready non-kill exit. -/
theorem C3_counterexample :
    (GoWatch.runEvs ⟨false⟩ GoWatch.raceTrace).procs.lookup 0 = some ⟨true, true, true⟩
    ∧ (GoWatch.runEvs ⟨false⟩ GoWatch.raceTrace).isKilling = false
    ∧ (GoWatch.runEvs ⟨false⟩ GoWatch.raceTrace).kills = []
    ∧ (GoWatch.runEvs ⟨false⟩ GoWatch.raceExitTrace).restarts = []
    ∧ (GoWatch.runEvs ⟨false⟩ GoWatch.raceExitTrace).wsErrors = 0 := by
  decide

/-- Claim C3 as amended: for an observed child exit not caused by an
intentional kill (`killInProgress` unset and no pending kill on that child):
if the child had never reached ready, the `runGoApp` promise rejects — the
pipeline awaiting readiness finishes with an error notification — and no
restart is scheduled; if the child had reached ready *and is still the
tracked child*, exactly one RestartLoop invocation is scheduled after the
fixed 1000 ms delay and no error notification is sent (a ready but
no-longer-tracked instance's exit is only logged, see the counterexample). -/
theorem C3_exit_classification (cfg : GoWatch.Cfg) (s : GoWatch.Sys) (pid : Nat)
    (pr : GoWatch.ProcSt)
    (hlk : s.procs.lookup pid = some pr) (hlive : pr.live = true)
    (hconf : pr.confirmed = true) (hnk : s.isKilling = false)
    (hkills : ∀ k ∈ s.kills, ¬ k.target = pid) :
    (pr.ready = false →
        (GoWatch.step cfg s (GoWatch.Ev.exited pid)).restarts = s.restarts
        ∧ (s.pipes.any (fun p => p.phase = GoWatch.Phase.awaitReady pid) = true →
            (GoWatch.step cfg s (GoWatch.Ev.exited pid)).wsErrors = s.wsErrors + 1))
    ∧ (pr.ready = true → s.goProcess = some pid →
        (GoWatch.step cfg s (GoWatch.Ev.exited pid)).restarts = s.restarts ++ [1000]
        ∧ (GoWatch.step cfg s (GoWatch.Ev.exited pid)).wsErrors = s.wsErrors) := by
  have hstep : GoWatch.step cfg s (GoWatch.Ev.exited pid)
      = GoWatch.exitKills pid (GoWatch.exitReject pid pr (GoWatch.exitTracked pid pr
          { s with procs := GoWatch.updProc pid (fun q => { q with live := false }) s.procs })) := by
    show GoWatch.onExitEv pid s = _
    unfold GoWatch.onExitEv
    rw [hlk]
    simp only [hlive, hconf, Bool.and_self, if_true]
  have hkills2 : ∀ k ∈ (GoWatch.exitReject pid pr (GoWatch.exitTracked pid pr
      { s with procs := GoWatch.updProc pid (fun q => { q with live := false }) s.procs })).kills,
      ¬ k.target = pid := by
    rw [GoWatch.exitReject_kills, GoWatch.exitTracked_kills]
    exact hkills
  constructor
  · intro hready
    rw [hstep, GoWatch.exitKills_noPending _ _ hkills2]
    constructor
    · rw [GoWatch.exitReject_restarts]
      exact GoWatch.exitTracked_restarts_notReady _ _ _ hready
    · intro hany
      rw [GoWatch.exitReject_wsErrors_reject _ _ _ hready
            (by rw [GoWatch.exitTracked_pipes]; exact hany),
          GoWatch.exitTracked_wsErrors]
  · intro hready hg
    rw [hstep, GoWatch.exitKills_noPending _ _ hkills2]
    constructor
    · rw [GoWatch.exitReject_restarts]
      exact GoWatch.exitTracked_restarts_crash _ _ _ hg hnk hready
    · rw [GoWatch.exitReject_wsErrors_ready _ _ _ hready, GoWatch.exitTracked_wsErrors]

/-- Witness for C3's amended theorem at concrete inputs: with a pattern
configured, the pre-ready exit of child 0 rejects and sends the error
notification; without a pattern, the post-ready exit of the tracked child 0
schedules exactly one 1000 ms restart. -/
theorem C3_exit_classification_witness :
    ((GoWatch.runEvs ⟨true⟩ GoWatch.oneChildTrace).procs.lookup 0 = some ⟨true, true, false⟩)
    ∧ (GoWatch.step ⟨true⟩ (GoWatch.runEvs ⟨true⟩ GoWatch.oneChildTrace)
        (GoWatch.Ev.exited 0)).wsErrors
        = (GoWatch.runEvs ⟨true⟩ GoWatch.oneChildTrace).wsErrors + 1
    ∧ ((GoWatch.runEvs ⟨false⟩ GoWatch.oneChildTrace).procs.lookup 0 = some ⟨true, true, true⟩)
    ∧ (GoWatch.step ⟨false⟩ (GoWatch.runEvs ⟨false⟩ GoWatch.oneChildTrace)
        (GoWatch.Ev.exited 0)).restarts
        = (GoWatch.runEvs ⟨false⟩ GoWatch.oneChildTrace).restarts ++ [1000] := by
  refine ⟨by decide, ?_, by decide, ?_⟩
  · exact ((C3_exit_classification ⟨true⟩ _ 0 ⟨true, true, false⟩ (by decide) rfl rfl
      (by decide) (by decide)).1 rfl).2 (by decide)
  · exact ((C3_exit_classification ⟨false⟩ _ 0 ⟨true, true, true⟩ (by decide) rfl rfl
      (by decide) (by decide)).2 rfl (by decide)).1

lemma GoWatch.replicate_trigger_state (cfg : GoWatch.Cfg) (a : GoWatch.TAct) :
    ∀ n : Nat, GoWatch.runEvs cfg (List.replicate (n+1) (GoWatch.Ev.trigger a))
      = { GoWatch.Sys.start with timers := [(n, a)], timerVar := some n, nextTimer := n + 1 } := by
  intro n
  induction n with
  | zero => rfl
  | succ n ih =>
    have h1 : GoWatch.runEvs cfg (List.replicate (n+1+1) (GoWatch.Ev.trigger a))
        = GoWatch.step cfg (GoWatch.runEvs cfg (List.replicate (n+1) (GoWatch.Ev.trigger a)))
            (GoWatch.Ev.trigger a) := by
      unfold GoWatch.runEvs
      rw [List.replicate_succ' (n+1), List.foldl_append]
      rfl
    rw [h1, ih]
    simp only [GoWatch.step]
    unfold GoWatch.onTrigger GoWatch.clearTimer GoWatch.setTimer
    simp [GoWatch.Sys.start, List.filter]

/-- Counterexample to claim C4: two same-class triggers arriving in one
debounce window while a build is in flight and a child is tracked (the
pipeline is awaiting the ready pattern).  Each trigger registers its own
pending `killGoProcess` continuation; when the child's exit resolves both
kills, each continuation runs `setTimeout` — the shared `buildTimeout`
variable only remembers the second handle, the first timer is never cleared —
so two pipeline invocations are scheduled and both eventually run. -/
theorem C4_counterexample :
    ¬ ((GoWatch.runEvs ⟨true⟩ GoWatch.burstTrace).timers.length = 1)
    ∧ (GoWatch.runEvs ⟨true⟩ GoWatch.burstTrace).timers
        = [(1, GoWatch.TAct.rebuild), (2, GoWatch.TAct.rebuild)]
    ∧ (GoWatch.runEvs ⟨true⟩ (GoWatch.burstTrace
        ++ [GoWatch.Ev.timerFire 1, GoWatch.Ev.timerFire 2])).pipes.length = 3 := by
  decide

/-- Claim C4 as amended: when no build is in flight, N same-class change
events within one debounce window coalesce — each trigger cancels the pending
timer and restarts it, so after N triggers exactly one timer (the last
trigger's) is pending and firing it starts exactly one pipeline invocation.
When a build is in flight with a tracked child, each trigger instead
schedules its own invocation after the kill resolves (see the
counterexample). -/
theorem C4_debounce_coalesce (cfg : GoWatch.Cfg) (a : GoWatch.TAct) (n : Nat) :
    (GoWatch.runEvs cfg (List.replicate (n+1) (GoWatch.Ev.trigger a))).timers = [(n, a)]
    ∧ (GoWatch.runEvs cfg (List.replicate (n+1) (GoWatch.Ev.trigger a))).pipes = []
    ∧ (GoWatch.step cfg (GoWatch.runEvs cfg (List.replicate (n+1) (GoWatch.Ev.trigger a)))
        (GoWatch.Ev.timerFire n)).pipes.length = 1 := by
  rw [GoWatch.replicate_trigger_state cfg a n]
  refine ⟨rfl, rfl, ?_⟩
  show (GoWatch.onTimerFire n _).pipes.length = 1
  unfold GoWatch.onTimerFire
  simp only [List.find?]
  cases a with
  | rebuild =>
    simp [GoWatch.startPipe, GoWatch.TAct.kind, GoWatch.killWith, GoWatch.Sys.start,
      GoWatch.runKCont, GoWatch.updPipe, List.filter]
  | preOnly =>
    simp [GoWatch.startPipe, GoWatch.TAct.kind, GoWatch.killWith, GoWatch.Sys.start,
      GoWatch.runKCont, GoWatch.updPipe, List.filter]

lemma GoWatch.killWith_kill_inv (k : GoWatch.KCont) (s : GoWatch.Sys)
    (h : s.isKilling = true → s.kills ≠ []) :
    (GoWatch.killWith k s).isKilling = true → (GoWatch.killWith k s).kills ≠ [] := by
  unfold GoWatch.killWith
  split
  · intro hh
    rw [GoWatch.runKCont_kills]
    rw [GoWatch.runKCont_isKilling] at hh
    exact h hh
  · intro _
    simp

lemma GoWatch.step_kill_inv (cfg : GoWatch.Cfg) (e : GoWatch.Ev) (s : GoWatch.Sys)
    (h : s.isKilling = true → s.kills ≠ []) :
    (GoWatch.step cfg s e).isKilling = true → (GoWatch.step cfg s e).kills ≠ [] := by
  cases e with
  | trigger a =>
    show (GoWatch.onTrigger a s).isKilling = true → (GoWatch.onTrigger a s).kills ≠ []
    unfold GoWatch.onTrigger
    dsimp only []
    split
    · exact GoWatch.killWith_kill_inv _ _ h
    · exact h
  | timerFire id =>
    show (GoWatch.onTimerFire id s).isKilling = true → (GoWatch.onTimerFire id s).kills ≠ []
    unfold GoWatch.onTimerFire
    split
    · exact h
    · unfold GoWatch.startPipe
      dsimp only []
      split
      · exact GoWatch.killWith_kill_inv _ _ h
      · exact h
  | buildDone i =>
    show (GoWatch.onBuildDone i s).isKilling = true → (GoWatch.onBuildDone i s).kills ≠ []
    unfold GoWatch.onBuildDone
    split
    · exact h
    · dsimp only []
      split
      · split
        · exact h
        · exact h
      · exact h
  | buildFail i =>
    show (GoWatch.onBuildFail i s).isKilling = true → (GoWatch.onBuildFail i s).kills ≠ []
    unfold GoWatch.onBuildFail
    split
    · exact h
    · split
      · exact h
      · exact h
  | spawned pid =>
    show (GoWatch.onSpawnEv cfg pid s).isKilling = true → (GoWatch.onSpawnEv cfg pid s).kills ≠ []
    unfold GoWatch.onSpawnEv
    dsimp only []
    split
    · split
      · exact h
      · exact h
    · exact h
  | becameReady pid =>
    show (GoWatch.onReadyEv pid s).isKilling = true → (GoWatch.onReadyEv pid s).kills ≠ []
    unfold GoWatch.onReadyEv
    split
    · exact h
    · exact h
  | exited pid =>
    show (GoWatch.onExitEv pid s).isKilling = true → (GoWatch.onExitEv pid s).kills ≠ []
    unfold GoWatch.onExitEv
    split
    · exact h
    · split
      · apply GoWatch.exitKills_kill_inv
        intro hh
        rw [GoWatch.exitReject_kills, GoWatch.exitTracked_kills]
        rw [GoWatch.exitReject_isKilling, GoWatch.exitTracked_isKilling] at hh
        exact h hh
      · exact h

lemma GoWatch.runEvs_kill_inv (cfg : GoWatch.Cfg) :
    ∀ (evs : List GoWatch.Ev) (s : GoWatch.Sys),
      (s.isKilling = true → s.kills ≠ []) →
      ((evs.foldl (GoWatch.step cfg) s).isKilling = true
        → (evs.foldl (GoWatch.step cfg) s).kills ≠ []) := by
  intro evs
  induction evs with
  | nil => intro s h; exact h
  | cons e evs ih =>
    intro s h
    rw [List.foldl_cons]
    exact ih _ (GoWatch.step_kill_inv cfg e s h)

/-- Counterexample to claim C9: after `killRaceTrace`, a kill is pending for
child 0 only (`killInProgress` set), while child 1 is tracked, live and
ready.  Child 1 then crashes; because `isKillingProcess` is one global flag,
its exit is classified as intentional and no restart is scheduled — the
termination of child 0 affected the exit classification of child 1, so the
flag is not scoped to one child. -/
theorem C9_counterexample :
    (GoWatch.runEvs ⟨false⟩ GoWatch.killRaceTrace).kills
        = [⟨0, GoWatch.KCont.resumePipe 2⟩]
    ∧ (GoWatch.runEvs ⟨false⟩ GoWatch.killRaceTrace).isKilling = true
    ∧ (GoWatch.runEvs ⟨false⟩ GoWatch.killRaceTrace).goProcess = some 1
    ∧ (GoWatch.runEvs ⟨false⟩ GoWatch.killRaceTrace).procs.lookup 1
        = some ⟨true, true, true⟩
    ∧ (GoWatch.runEvs ⟨false⟩
        (GoWatch.killRaceTrace ++ [GoWatch.Ev.exited 1])).restarts = [] := by
  decide

/-- Claim C9 as amended: `killInProgress` is set when a termination request
starts on a tracked child and, along every trace, it is true only while a
`killGoProcess` promise is pending (it is cleared at the observed exit or at
a failed signal send).  It is however one global flag, not scoped to the
child being killed: while any kill is in progress, the unexpected exit of
whatever child is tracked — including a different, newly spawned one — is
classified as intentional and schedules no restart (see the counterexample). -/
theorem C9_kill_flag_scope (cfg : GoWatch.Cfg) :
    (∀ evs : List GoWatch.Ev,
        (GoWatch.runEvs cfg evs).isKilling = true → (GoWatch.runEvs cfg evs).kills ≠ [])
    ∧ (∀ (s : GoWatch.Sys) (pid : Nat) (pr : GoWatch.ProcSt),
        s.procs.lookup pid = some pr → pr.live = true → pr.confirmed = true →
        s.isKilling = true →
        (GoWatch.step cfg s (GoWatch.Ev.exited pid)).restarts = s.restarts) := by
  constructor
  · intro evs
    exact GoWatch.runEvs_kill_inv cfg evs GoWatch.Sys.start
      (by intro hh; exact absurd hh (by decide))
  · intro s pid pr hlk hlive hconf hk
    have hstep : GoWatch.step cfg s (GoWatch.Ev.exited pid)
        = GoWatch.exitKills pid (GoWatch.exitReject pid pr (GoWatch.exitTracked pid pr
            { s with procs := GoWatch.updProc pid (fun q => { q with live := false }) s.procs })) := by
      show GoWatch.onExitEv pid s = _
      unfold GoWatch.onExitEv
      rw [hlk]
      simp only [hlive, hconf, Bool.and_self, if_true]
    rw [hstep, GoWatch.exitKills_restarts, GoWatch.exitReject_restarts,
        GoWatch.exitTracked_restarts_killing _ _ _ (by exact hk)]

/-- Witness for C9's amended theorem at concrete inputs: in the kill-race
state the flag is set and a kill is indeed pending, and the exit of the
tracked ready child 1 leaves the restart list unchanged. -/
theorem C9_kill_flag_scope_witness :
    ((GoWatch.runEvs ⟨false⟩ GoWatch.killRaceTrace).isKilling = true)
    ∧ (GoWatch.runEvs ⟨false⟩ GoWatch.killRaceTrace).kills ≠ []
    ∧ ((GoWatch.runEvs ⟨false⟩ GoWatch.killRaceTrace).procs.lookup 1 = some ⟨true, true, true⟩)
    ∧ (GoWatch.step ⟨false⟩ (GoWatch.runEvs ⟨false⟩ GoWatch.killRaceTrace)
        (GoWatch.Ev.exited 1)).restarts
        = (GoWatch.runEvs ⟨false⟩ GoWatch.killRaceTrace).restarts := by
  refine ⟨by decide, (C9_kill_flag_scope ⟨false⟩).1 GoWatch.killRaceTrace (by decide),
    by decide,
    (C9_kill_flag_scope ⟨false⟩).2 _ 1 ⟨true, true, true⟩ (by decide) rfl rfl (by decide)⟩
